import Mathlib

/-!
Shallow embedding of the ALPR Event Dashboard server (src/server/index.js):
record normalization (transformRowToDetection, normalizeTimestamp,
extractVehicleMake, toTitleCase), the filter query builder of the
/api/detections family, and the OTP / session authentication endpoints,
together with theorems checking the natural-language specification
against these definitions.
-/

namespace ALPR

/-! JavaScript-style helpers shared by the embedded functions. -/

/-- ASCII lowercasing, character by character (a kernel-reducible
equivalent of JS toLowerCase over the alphabet the data uses). -/
def lowerStr (s : String) : String := String.mk (s.data.map Char.toLower)

/-- Trim whitespace from both ends (JS String.trim). -/
def trimStr (s : String) : String :=
  String.mk (((s.data.dropWhile Char.isWhitespace).reverse.dropWhile
    Char.isWhitespace).reverse)

/-- JS truthiness on an optional string: an absent value and the empty
string are falsy.  Returns the value when truthy, `none` otherwise
(models the left operand of a JS logical-or chain). -/
def truthyStr : Option String → Option String
  | none => none
  | some s => if s = "" then none else some s

/-- JS string-or chain: first truthy of the option, else the default
(models expressions of the shape a or b in the source). -/
def jsOr (a : Option String) (d : String) : String :=
  (truthyStr a).getD d

/-- Longest leading run of decimal digits of a character list, as a
number; `none` when the list does not start with a digit (models how
parseInt consumes its input after sign handling). -/
def leadingDigits (cs : List Char) : Option Nat :=
  let ds := cs.takeWhile (·.isDigit)
  if ds = [] then none
  else some (ds.foldl (fun a c => a * 10 + (c.toNat - 48)) 0)

/-- JS parseInt(s, 10): skip surrounding whitespace, optional sign, then
the longest digit run; NaN (here `none`) when no digit follows. -/
def jsParseInt (s : String) : Option Int :=
  match (trimStr s).data with
  | '-' :: rest => (leadingDigits rest).map (fun n => -(n : Int))
  | '+' :: rest => (leadingDigits rest).map (fun n => (n : Int))
  | cs => (leadingDigits cs).map (fun n => (n : Int))

/-- A non-empty all-digit character list read as a number, `none`
otherwise (models the digit-only regular-expression test followed by
parseInt in normalizeTimestamp). -/
def decDigitsOnly (cs : List Char) : Option Nat :=
  if cs ≠ [] ∧ cs.all (·.isDigit) then
    some (cs.foldl (fun a c => a * 10 + (c.toNat - 48)) 0)
  else none

/-! Timestamp normalization (normalizeTimestamp in the source). -/

/-- A JS value reaching normalizeTimestamp: a native Date (whose getTime
is either a number or NaN), a number (restricted to integers here), or a
string. -/
inductive TsVal where
  | date (ms : Option Int)
  | num (n : Int)
  | str (s : String)
deriving DecidableEq

/-- normalizeTimestamp from the source.  `dateParse` stands for the
host's calendar-text Date parser (new Date(string).getTime()), which is
environment-defined and therefore a parameter of the embedding. -/
def normalizeTimestamp (dateParse : String → Option Int) : Option TsVal → Option Int
  | none => none
  | some (.date ms) => ms
  | some (.num n) => if n < 10 ^ 11 then some (n * 1000) else some n
  | some (.str s) =>
      match decDigitsOnly (trimStr s).data with
      | some n => if (n : Int) < 10 ^ 11 then some ((n : Int) * 1000) else some (n : Int)
      | none => dateParse s

/-- Degenerate date parser used to instantiate counterexamples. -/
def noDateParse : String → Option Int := fun _ => none

/-! Claim C5 -/

/-- C5 (counterexample): the claim also asserts that every
millisecond-epoch value round-trips through normalize, but at the
millisecond epoch 1000 (one second past 1970-01-01T00:00:00Z) the
heuristic treats the value as seconds and returns 1000000, not 1000. -/
theorem c5_roundtrip_counterexample :
    normalizeTimestamp noDateParse (some (TsVal.num 1000)) = some 1000000 ∧
    (1000000 : Int) ≠ 1000 := by
  constructor
  · decide
  · decide

/-- C5 (amended): for every integer n, normalize(n) is n*1000 when
n < 10^11 and n otherwise, and normalize(null) = null; consequently the
round-trip normalize(m) = m holds exactly for millisecond epochs
m ≥ 10^11 (from March 1973 onwards), not for all of them. -/
theorem c5_numeric_heuristic (dateParse : String → Option Int) (n : Int) :
    normalizeTimestamp dateParse (some (TsVal.num n)) =
      some (if n < 10 ^ 11 then n * 1000 else n) ∧
    normalizeTimestamp dateParse none = none := by
  constructor
  · show (if n < 10 ^ 11 then some (n * 1000) else some n) = _
    split <;> simp_all
  · rfl

/-! Metadata document model: the JSON shapes the server actually
inspects.  Scalar-or-object fields are the tagged union the code
branches on with typeof. -/

/-- A JSON leaf the vehicle extractors accept: either a bare string or
an object carrying optional code / name keys. -/
inductive JLeaf where
  | str (s : String)
  | obj (code : Option String) (name : Option String)
deriving DecidableEq

/-- A make-like field: absent, a leaf, or an array of leaves (the
resolver picks the first truthy element of an array). -/
inductive MakeField where
  | absent
  | leaf (l : JLeaf)
  | arr (xs : List JLeaf)
deriving DecidableEq

/-- Inline vehicle object (metadata.vehicle / vehicleData /
attributes.vehicle). -/
structure VehicleObj where
  make : MakeField := .absent
  manufacturer : MakeField := .absent
  brand : MakeField := .absent
  color : Option JLeaf := none
  orientation : Option JLeaf := none
  type : Option JLeaf := none
  bearing : Option Rat := none
  occlusion : Option Rat := none
deriving DecidableEq

/-- metadata.attributes object. -/
structure Attrs where
  vehicle : Option VehicleObj := none
  make : MakeField := .absent
  manufacturer : MakeField := .absent
  brand : MakeField := .absent
deriving DecidableEq

/-- Plate bounding region. -/
structure Region where
  height : Int
  width : Int
  x : Int
  y : Int
deriving DecidableEq

/-- The all-zero region synthesized for rows without metadata.plate. -/
def zeroRegion : Region := ⟨0, 0, 0, 0⟩

/-- metadata.plate object. -/
structure MetaPlate where
  code : Option String := none
  region : Option Region := none
  tag : Option String := none
deriving DecidableEq

/-- metadata.source object. -/
structure MetaSource where
  id : Option String := none
  name : Option String := none
  type : Option String := none
deriving DecidableEq

/-- metadata.image object (also the shape of the default image). -/
structure MetaImage where
  height : Option Int := none
  id : Option String := none
  width : Option Int := none
  timestamp : Option TsVal := none
deriving DecidableEq

/-- Geolocation. -/
structure LocOut where
  lat : Rat
  lon : Rat
deriving DecidableEq

/-- The parsed metadata document: exactly the keys the server reads. -/
structure Metadata where
  vehicle : Option VehicleObj := none
  vehicleData : Option VehicleObj := none
  attributes : Option Attrs := none
  make : MakeField := .absent
  vehicleMake : MakeField := .absent
  plate : Option MetaPlate := none
  source : Option MetaSource := none
  timestamp : Option TsVal := none
  image : Option MetaImage := none
  location : Option LocOut := none
  timeOfDay : Option Int := none
  type : Option String := none
  version : Option String := none
  id : Option String := none
deriving DecidableEq

/-- The metadata column of a storage row: SQL NULL, a text payload that
fails to parse as JSON, or a parsed document. -/
inductive MetaCol where
  | jnull
  | invalid
  | doc (m : Metadata)
deriving DecidableEq

/-- JSON.parse with the catch-all of transformRowToDetection: a missing
or unparseable payload degrades to the empty document. -/
def parseMeta : MetaCol → Metadata
  | .doc m => m
  | .jnull => {}
  | .invalid => {}

/-- One storage row as selected by the list / search / export queries. -/
structure Row where
  id : Option String := none
  timestamp : Option Int := none
  plate_tag : Option String := none
  camera_id : Option String := none
  camera_name : Option String := none
  metadata : MetaCol := .jnull
  source_file : Option String := none
deriving DecidableEq

/-! Vehicle make resolution (extractVehicleMake / toTitleCase). -/

/-- Result of the make resolver: a code and a display name. -/
structure MakeRes where
  code : String
  name : String
deriving DecidableEq

/-- JS truthiness of a JSON leaf (empty strings are falsy, objects are
truthy). -/
def leafTruthy : JLeaf → Bool
  | .str s => s ≠ ""
  | .obj _ _ => true

/-- Resolution of one candidate leaf, as in the loop body of
extractVehicleMake: a string becomes code (lowercased) and name
(trimmed); an object takes name else code as display name and code else
name as the lowercased code. -/
def resolveLeaf : JLeaf → Option MakeRes
  | .str v =>
      let n := trimStr v
      if n = "" then none else some ⟨lowerStr n, n⟩
  | .obj c nm =>
      let n := jsOr nm (jsOr c "")
      if n = "" then none else some ⟨lowerStr (jsOr c n), n⟩

/-- Resolution of one candidate field: skip falsy candidates, flatten an
array to its first truthy element. -/
def resolveCand : MakeField → Option MakeRes
  | .absent => none
  | .leaf l => if leafTruthy l then resolveLeaf l else none
  | .arr xs =>
      match xs.find? leafTruthy with
      | none => none
      | some l => resolveLeaf l

/-- The ordered candidate list of extractVehicleMake. -/
def candMakes (m : Metadata) : List MakeField :=
  [ (m.vehicle.map (·.make)).getD .absent
  , m.make
  , m.vehicleMake
  , (m.attributes.map (·.make)).getD .absent
  , (m.vehicle.map (·.manufacturer)).getD .absent
  , (m.vehicle.map (·.brand)).getD .absent
  , (m.attributes.map (·.manufacturer)).getD .absent
  , (m.attributes.map (·.brand)).getD .absent ]

/-- extractVehicleMake from the source: first candidate that resolves. -/
def extractVehicleMake (m : Metadata) : Option MakeRes :=
  (candMakes m).findSome? resolveCand

mutual

/-- Splitting on whitespace runs, JS String.split with a whitespace
regex: a run of whitespace is one separator, and a leading or trailing
run contributes an empty piece. -/
def splitWsGo : List Char → List Char → List String
  | [], acc => [String.mk acc.reverse]
  | c :: rest, acc =>
    if c.isWhitespace then String.mk acc.reverse :: splitWsSkip rest
    else splitWsGo rest (c :: acc)

/-- Consume the rest of a whitespace run, then continue with the next
piece (an exhausted input leaves a trailing empty piece). -/
def splitWsSkip : List Char → List String
  | [] => [""]
  | c :: rest => if c.isWhitespace then splitWsSkip rest else splitWsGo rest [c]

end

/-- Split a string on whitespace runs. -/
def splitWs (s : String) : List String := splitWsGo s.data []

/-- Capitalize the first character of a word, leaving the rest as is. -/
def capWord (w : String) : String :=
  match w.data with
  | [] => ""
  | c :: cs => String.mk (c.toUpper :: cs)

/-- toTitleCase from the source: lowercase, split on whitespace,
capitalize each word, re-join with single spaces; falsy input is
returned unchanged. -/
def toTitleCase (s : String) : String :=
  if s = "" then s
  else String.intercalate " " ((splitWs (lowerStr s)).map capWord)

/-! Record normalization (transformRowToDetection). -/

/-- Output code/name pair for make, orientation and type. -/
structure CN where
  code : String
  name : String
deriving DecidableEq

/-- Output color (only a code is produced). -/
structure ColorOut where
  code : String
deriving DecidableEq

/-- Normalized vehicle sub-record of a Detection. -/
structure VehicleOut where
  bearing : Rat
  color : ColorOut
  occlusion : Rat
  orientation : CN
  make : CN
  type : CN
deriving DecidableEq

/-- The initial vehicle record of transformRowToDetection, before any
metadata is consulted. -/
def defaultVehicle : VehicleOut :=
  { bearing := 0
  , color := ⟨"unknown"⟩
  , occlusion := 0
  , orientation := ⟨"unknown", "N/A"⟩
  , make := ⟨"unknown", "N/A"⟩
  , type := ⟨"unknown", "N/A"⟩ }

/-- Normalized plate sub-record. -/
structure PlateOut where
  code : Option String
  region : Option Region
  tag : String
deriving DecidableEq

/-- Normalized source sub-record. -/
structure SourceOut where
  id : String
  name : String
  type : Option String
deriving DecidableEq

/-- The canonical Detection record. -/
structure Detection where
  id : Option String
  image : MetaImage
  location : LocOut
  plate : PlateOut
  source : SourceOut
  timeOfDay : Int
  timestamp : Option Int
  type : String
  vehicle : VehicleOut
  version : String
deriving DecidableEq

/-- The inline vehicle object used for per-field extraction:
metadata.vehicle, else metadata.vehicleData, else
metadata.attributes.vehicle. -/
def vehicleDataOf (m : Metadata) : Option VehicleObj :=
  m.vehicle <|> m.vehicleData <|> (m.attributes.bind (·.vehicle))

/-- Color extraction step. -/
def applyColor (vd : VehicleObj) (v : VehicleOut) : VehicleOut :=
  match vd.color with
  | none => v
  | some (.str s) => if s = "" then v else { v with color := ⟨s⟩ }
  | some (.obj c n) => { v with color := ⟨jsOr c (jsOr n "unknown")⟩ }

/-- Orientation code → label lookup of the source. -/
def orientLabel (c : String) : String :=
  if c = "rear" then "Rear"
  else if c = "front" then "Front"
  else if c = "side" then "Side"
  else if c = "back" then "Rear"
  else if c = "forward" then "Front"
  else "N/A"

/-- Orientation extraction step. -/
def applyOrientation (vd : VehicleObj) (v : VehicleOut) : VehicleOut :=
  match vd.orientation with
  | none => v
  | some (.str s) => if s = "" then v else { v with orientation := ⟨s, orientLabel s⟩ }
  | some (.obj c n) =>
      let oc := jsOr c (jsOr n "unknown")
      { v with orientation := ⟨oc, jsOr n (orientLabel oc)⟩ }

/-- Inline make extraction step (the vehicle-level path; an array value
behaves like an object without code or name keys, as in JS where an
array is an object). -/
def applyInlineMake (vd : VehicleObj) (v : VehicleOut) : VehicleOut :=
  match vd.make with
  | .absent => v
  | .leaf (.str s) =>
      if s = "" then v else { v with make := ⟨lowerStr s, toTitleCase s⟩ }
  | .leaf (.obj c n) =>
      let nameSource := jsOr n (jsOr c "N/A")
      let nm := toTitleCase nameSource
      { v with make := ⟨lowerStr (jsOr c nm), nm⟩ }
  | .arr _ =>
      let nm := toTitleCase "N/A"
      { v with make := ⟨lowerStr nm, nm⟩ }

/-- Document-level make override step: when extractVehicleMake finds a
match anywhere in the document it replaces the inline make. -/
def applyDocMake (m : Metadata) (v : VehicleOut) : VehicleOut :=
  match extractVehicleMake m with
  | none => v
  | some r => { v with make := ⟨lowerStr r.code, toTitleCase r.name⟩ }

/-- Vehicle type code → label lookup of the source. -/
def typeLabel (c : String) : String :=
  if c = "sedan" then "Sedan"
  else if c = "suv" then "SUV"
  else if c = "truck" then "Truck"
  else if c = "van" then "Van"
  else if c = "car" then "Car"
  else if c = "motorcycle" then "Motorcycle"
  else if c = "bus" then "Bus"
  else "N/A"

/-- Type extraction step. -/
def applyType (vd : VehicleObj) (v : VehicleOut) : VehicleOut :=
  match vd.type with
  | none => v
  | some (.str s) => if s = "" then v else { v with type := ⟨s, typeLabel s⟩ }
  | some (.obj c n) =>
      let tc := jsOr c (jsOr n "unknown")
      { v with type := ⟨tc, jsOr n (typeLabel tc)⟩ }

/-- Bearing extraction step (set whenever defined, including zero). -/
def applyBearing (vd : VehicleObj) (v : VehicleOut) : VehicleOut :=
  match vd.bearing with
  | none => v
  | some b => { v with bearing := b }

/-- Occlusion extraction step. -/
def applyOcclusion (vd : VehicleObj) (v : VehicleOut) : VehicleOut :=
  match vd.occlusion with
  | none => v
  | some o => { v with occlusion := o }

/-- The vehicle sub-record of transformRowToDetection, applying the
extraction steps in source order (color, orientation, inline make,
document-level make override, type, bearing, occlusion). -/
def vehicleOf (m : Metadata) : VehicleOut :=
  match vehicleDataOf m with
  | none => defaultVehicle
  | some vd =>
      applyOcclusion vd (applyBearing vd (applyType vd
        (applyDocMake m (applyInlineMake vd
          (applyOrientation vd (applyColor vd defaultVehicle))))))

/-- The plate sub-record: spread of metadata.plate with its tag
defaulted through the flat plate_tag column, else a synthesized
US-FL plate. -/
def plateOf (m : Metadata) (plateTag : Option String) : PlateOut :=
  match m.plate with
  | some mp => ⟨mp.code, mp.region, jsOr mp.tag (jsOr plateTag "")⟩
  | none => ⟨some "US-FL", some zeroRegion, jsOr plateTag ""⟩

/-- The source sub-record: spread of metadata.source with name and id
defaulted through the flat camera columns, else a synthesized
alpr_processor source. -/
def sourceOf (m : Metadata) (cameraId cameraName : Option String) : SourceOut :=
  match m.source with
  | some ms => ⟨jsOr ms.id (jsOr cameraId ""), jsOr ms.name (jsOr cameraName "N/A"), ms.type⟩
  | none => ⟨jsOr cameraId "", jsOr cameraName "N/A", some "alpr_processor"⟩

/-- JS falsiness of a nullable number (null, undefined and 0 are
falsy). -/
def jsFalsyNum : Option Int → Bool
  | none => true
  | some n => n == 0

/-- Timestamp reconciliation: metadata.timestamp, else the row's native
timestamp column, else metadata.image.timestamp, each normalized, with
falsy (null or zero) intermediate results falling through. -/
def timestampOf (dateParse : String → Option Int) (m : Metadata)
    (rowTs : Option Int) : Option Int :=
  let t1 := normalizeTimestamp dateParse m.timestamp
  if jsFalsyNum t1 then
    let t2 := normalizeTimestamp dateParse (rowTs.map .num)
    if jsFalsyNum t2 then
      normalizeTimestamp dateParse (m.image.bind (·.timestamp))
    else t2
  else t1

/-- The default image object of the source. -/
def defaultImage : MetaImage := { height := some 1080, id := some "", width := some 1920 }

/-- transformRowToDetection from the source. -/
def transformRowToDetection (dateParse : String → Option Int) (row : Row) : Detection :=
  let m := parseMeta row.metadata
  { id := (truthyStr row.id) <|> m.id
  , image := m.image.getD defaultImage
  , location := m.location.getD ⟨0, 0⟩
  , plate := plateOf m row.plate_tag
  , source := sourceOf m row.camera_id row.camera_name
  , timeOfDay := m.timeOfDay.getD 0
  , timestamp := timestampOf dateParse m row.timestamp
  , type := jsOr m.type "alpr"
  , vehicle := vehicleOf m
  , version := jsOr m.version "1.0" }

/-! Claim C6 -/

/-- Type extraction leaves the make untouched. -/
lemma applyType_make (vd : VehicleObj) (v : VehicleOut) :
    (applyType vd v).make = v.make := by
  unfold applyType
  split <;> (try split) <;> rfl

/-- Bearing extraction leaves the make untouched. -/
lemma applyBearing_make (vd : VehicleObj) (v : VehicleOut) :
    (applyBearing vd v).make = v.make := by
  unfold applyBearing
  split <;> rfl

/-- Occlusion extraction leaves the make untouched. -/
lemma applyOcclusion_make (vd : VehicleObj) (v : VehicleOut) :
    (applyOcclusion vd v).make = v.make := by
  unfold applyOcclusion
  split <;> rfl

/-- A row whose metadata carries only a flat top-level make. -/
def c6Row : Row := { metadata := .doc { make := .leaf (.str "toyota") } }

/-- C6 (counterexample): for a row whose metadata has a flat make
"toyota" but no inline vehicle object, the document-level resolver finds
the make, yet the Detection's vehicle.make stays at its unknown default:
the override only runs when an inline vehicle object is present. -/
theorem c6_counterexample :
    extractVehicleMake (parseMeta c6Row.metadata) = some ⟨"toyota", "toyota"⟩ ∧
    (transformRowToDetection noDateParse c6Row).vehicle.make = ⟨"unknown", "N/A"⟩ ∧
    (⟨"unknown", "N/A"⟩ : CN) ≠ ⟨"toyota", toTitleCase "toyota"⟩ := by
  refine ⟨by decide, by decide, by decide⟩

/-- C6 (amended): for every storage row that has an inline vehicle
object (metadata.vehicle, metadata.vehicleData or
metadata.attributes.vehicle) and whose metadata document yields a match
from the make resolver, the Detection's vehicle.make equals that
document-level result (code lowercased, name title-cased), overriding
the inline value; without an inline vehicle object the override is
skipped. -/
theorem c6_doc_make_overrides (dateParse : String → Option Int) (row : Row)
    (vd : VehicleObj) (r : MakeRes)
    (h1 : vehicleDataOf (parseMeta row.metadata) = some vd)
    (h2 : extractVehicleMake (parseMeta row.metadata) = some r) :
    (transformRowToDetection dateParse row).vehicle.make =
      ⟨lowerStr r.code, toTitleCase r.name⟩ := by
  simp only [transformRowToDetection, vehicleOf, h1]
  rw [applyOcclusion_make, applyBearing_make, applyType_make]
  simp [applyDocMake, h2]

/-- C6 (witness): the amended theorem applied to a concrete row with an
inline vehicle object and a flat document-level make. -/
theorem c6_doc_make_overrides_witness :
    (transformRowToDetection noDateParse
        { metadata := .doc { make := .leaf (.str "land rover")
                           , vehicleData := some { make := .leaf (.str "toyota") } } }).vehicle.make =
      ⟨"land rover", "Land Rover"⟩ := by
  have h := c6_doc_make_overrides noDateParse
    { metadata := .doc { make := .leaf (.str "land rover")
                       , vehicleData := some { make := .leaf (.str "toyota") } } }
    { make := .leaf (.str "toyota") } ⟨"land rover", "land rover"⟩ (by decide) (by decide)
  exact h.trans (by decide)

/-! Claim C7 -/

/-- A row whose metadata.plate is present with an empty-string tag. -/
def c7Row : Row :=
  { plate_tag := some "ABC123"
  , metadata := .doc { plate := some ({ tag := some "" } : MetaPlate) } }

/-- C7 (counterexample): when metadata.plate.tag is present but the
empty string, the flat plate_tag column still overrides it (JS
falsiness), contradicting the claim that the column overrides only when
the JSON tag field is absent. -/
theorem c7_counterexample :
    (parseMeta c7Row.metadata).plate = some ({ tag := some "" } : MetaPlate) ∧
    (transformRowToDetection noDateParse c7Row).plate.tag = "ABC123" ∧
    ("ABC123" : String) ≠ "" := by
  refine ⟨by decide, by decide, by decide⟩

/-- C7 (amended): when metadata.plate is present the Detection keeps its
code and region and keeps its own tag whenever that tag is present and
non-empty; the flat plate_tag column overrides the tag when the JSON tag
field is absent or empty; when metadata.plate is absent the plate is
synthesized as code US-FL, zeroed region and the flat plate_tag. -/
theorem c7_plate_reconciliation (dateParse : String → Option Int) (row : Row) :
    ((parseMeta row.metadata).plate = none →
      (transformRowToDetection dateParse row).plate =
        ⟨some "US-FL", some zeroRegion, jsOr row.plate_tag ""⟩) ∧
    (∀ mp, (parseMeta row.metadata).plate = some mp →
      (transformRowToDetection dateParse row).plate.code = mp.code ∧
      (transformRowToDetection dateParse row).plate.region = mp.region ∧
      (∀ t, mp.tag = some t → t ≠ "" →
        (transformRowToDetection dateParse row).plate.tag = t) ∧
      ((mp.tag = none ∨ mp.tag = some "") →
        (transformRowToDetection dateParse row).plate.tag = jsOr row.plate_tag "")) := by
  constructor
  · intro h
    simp [transformRowToDetection, plateOf, h]
  · intro mp h
    refine ⟨?_, ?_, ?_, ?_⟩
    · simp [transformRowToDetection, plateOf, h]
    · simp [transformRowToDetection, plateOf, h]
    · intro t ht hne
      simp [transformRowToDetection, plateOf, h, ht, jsOr, truthyStr, hne]
    · rintro (ht | ht) <;>
        simp [transformRowToDetection, plateOf, h, ht, jsOr, truthyStr]

/-- C7 (witness): the amended theorem applied to a concrete row whose
metadata.plate carries a non-empty tag. -/
theorem c7_plate_reconciliation_witness :
    (transformRowToDetection noDateParse
        { plate_tag := some "COLUMN1"
        , metadata := .doc { plate := some ({ tag := some "JSONTAG" } : MetaPlate) } }).plate.tag =
      "JSONTAG" :=
  ((c7_plate_reconciliation noDateParse
      { plate_tag := some "COLUMN1"
      , metadata := .doc { plate := some ({ tag := some "JSONTAG" } : MetaPlate) } }).2
    ({ tag := some "JSONTAG" } : MetaPlate) (by decide)).2.2.1 "JSONTAG" rfl (by decide)

/-! Filter query builder (the WHERE-clause construction shared by the
/api/detections family) and the in-query make resolution expression
CAR_MAKE_SOURCE_SQL. -/

/-- One parameterized WHERE predicate of the list / count / export
queries. -/
inductive Cond where
  | cameraEq (v : String)
  | makeEq (v : String)
  | tsGe (n : Int)
  | tsLe (n : Int)
deriving DecidableEq

/-- JSON text of an optional string key, as jsonb serializes it (used
when a path of CAR_MAKE_SOURCE_SQL lands on a non-scalar value). -/
def keyJson (k : String) (v : Option String) : List String :=
  match v with
  | none => []
  | some s => ["\x22" ++ k ++ "\x22: \x22" ++ s ++ "\x22"]

/-- jsonb text serialization of a code/name object (jsonb orders the
keys). -/
def objJsonText (c n : Option String) : String :=
  "\x7b" ++ String.intercalate ", " (keyJson "code" c ++ keyJson "name" n) ++ "\x7d"

/-- jsonb text serialization of one array element. -/
def leafJsonText : JLeaf → String
  | .str s => "\x22" ++ s ++ "\x22"
  | .obj c n => objJsonText c n

/-- jsonb text serialization of an array of leaves. -/
def arrJsonText (xs : List JLeaf) : String :=
  "[" ++ String.intercalate ", " (xs.map leafJsonText) ++ "]"

/-- jsonb_extract_path_text over a make field with a trailing name key:
null unless the field is an object carrying the key. -/
def makeFieldName : MakeField → Option String
  | .leaf (.obj _ n) => n
  | _ => none

/-- jsonb_extract_path_text over a make field with a trailing code
key. -/
def makeFieldCode : MakeField → Option String
  | .leaf (.obj c _) => c
  | _ => none

/-- The ->> operator over a make field: text of a string, the jsonb
serialization of an object or array, null when absent. -/
def makeFieldText : MakeField → Option String
  | .absent => none
  | .leaf (.str s) => some s
  | .leaf (.obj c n) => some (objJsonText c n)
  | .arr xs => some (arrJsonText xs)

/-- NULLIF(btrim(x), ''): trim, then turn the empty string into null. -/
def nullifBlank (v : Option String) : Option String :=
  match v with
  | none => none
  | some s => let t := trimStr s; if t = "" then none else some t

/-- CAR_MAKE_SOURCE_SQL: the COALESCE chain resolving a make inside the
query, over an optionally-NULL metadata document; every branch blank or
null falls through to the literal unknown. -/
def carMakeSource (m : Option Metadata) : String :=
  match m with
  | none => "unknown"
  | some md =>
      (nullifBlank (md.vehicle.bind (fun v => makeFieldName v.make)) <|>
       nullifBlank (md.vehicle.bind (fun v => makeFieldCode v.make)) <|>
       nullifBlank (md.vehicle.bind (fun v => makeFieldText v.make)) <|>
       nullifBlank (makeFieldText md.make) <|>
       nullifBlank (makeFieldText md.vehicleMake) <|>
       nullifBlank (md.attributes.bind (fun a => makeFieldName a.make)) <|>
       nullifBlank (md.attributes.bind (fun a => makeFieldCode a.make)) <|>
       nullifBlank (md.attributes.bind (fun a => makeFieldText a.make))).getD "unknown"

/-- The metadata column as seen by the SQL cast metadata::jsonb: a
parsed document, a JSON null (all extractions null), or a cast error on
invalid text. -/
def metaForSql : MetaCol → Option (Option Metadata)
  | .doc m => some (some m)
  | .jnull => some none
  | .invalid => none

/-- The camera-name filter guard of every endpoint: provided, not the
sentinel, and not blank. -/
def cameraFilterActive (cameraName : Option String) : Bool :=
  match cameraName with
  | none => false
  | some c => c ≠ "" && c ≠ "All Cameras" && trimStr c ≠ ""

/-- The car-make filter guard: provided, not the sentinel, and not
blank. -/
def makeFilterActive (carMake : Option String) : Bool :=
  match carMake with
  | none => false
  | some c => c ≠ "" && c ≠ "All Makes" && trimStr c ≠ ""

/-- The bound value of the make predicate: the sentinels N/A and
unknown (case-insensitively) collapse to the canonical unknown. -/
def makeFilterValue (c : String) : String :=
  let normalized := lowerStr (trimStr c)
  if normalized = "unknown" || normalized = "n/a" then "unknown" else c

/-- A timestamp bound: provided and non-blank, then parsed with
parseInt; unparseable bounds are dropped. -/
def tsBound (v : Option String) : Option Int :=
  match v with
  | none => none
  | some s => if s = "" || trimStr s = "" then none else jsParseInt s

/-- The WHERE predicates of GET /api/detections (also count and export)
for a given filter set, in the order the source pushes them. -/
def buildDetectionConds (cameraName carMake startTimestamp endTimestamp :
    Option String) : List Cond :=
  (if cameraFilterActive cameraName then [Cond.cameraEq (cameraName.getD "")] else []) ++
  (if makeFilterActive carMake then [Cond.makeEq (makeFilterValue (carMake.getD ""))] else []) ++
  (match tsBound startTimestamp with
   | some n => [Cond.tsGe n]
   | none => []) ++
  (match tsBound endTimestamp with
   | some n => [Cond.tsLe n]
   | none => [])

/-- Truth of one predicate on a row (SQL three-valued logic: a NULL
comparison does not match).  A row whose metadata text is not valid
jsonb would abort the query; such rows satisfy no predicate here. -/
def evalCond (r : Row) : Cond → Bool
  | .cameraEq v => r.camera_name == some v
  | .makeEq v =>
      match metaForSql r.metadata with
      | none => false
      | some mm => lowerStr (carMakeSource mm) == lowerStr v
  | .tsGe n =>
      match r.timestamp with
      | none => false
      | some t => n ≤ t
  | .tsLe n =>
      match r.timestamp with
      | none => false
      | some t => t ≤ n

/-- Ordering of ORDER BY timestamp DESC (nulls first, PostgreSQL's
default for a descending sort). -/
def rowDescLe (a b : Row) : Bool :=
  match a.timestamp, b.timestamp with
  | none, _ => true
  | some _, none => false
  | some x, some y => y ≤ x

/-- Insertion step of the timestamp-descending sort. -/
def insertRowDesc (r : Row) : List Row → List Row
  | [] => [r]
  | x :: xs => if rowDescLe r x then r :: x :: xs else x :: insertRowDesc r xs

/-- The result order of ORDER BY timestamp DESC. -/
def sortRowsDesc (l : List Row) : List Row := l.foldr insertRowDesc []

/-- The || 1 / || 50 defaulting of the pagination parameters: an
absent, unparseable (NaN) or zero value falls back to the default. -/
def parseIntOr (default : Int) (q : Option String) : Int :=
  match q with
  | none => default
  | some s =>
      match jsParseInt s with
      | none => default
      | some n => if n = 0 then default else n

/-- The query-string parameters of GET /api/detections. -/
structure ListParams where
  page : Option String := none
  limit : Option String := none
  cameraName : Option String := none
  carMake : Option String := none
  startTimestamp : Option String := none
  endTimestamp : Option String := none

/-- GET /api/detections over a table of rows: filter, sort descending,
OFFSET (page-1)*limit, LIMIT limit, then normalize each row.  A
negative LIMIT or OFFSET is a query error (`none`). -/
def detectionsEndpoint (dateParse : String → Option Int) (table : List Row)
    (p : ListParams) : Option (List Detection) :=
  let page := parseIntOr 1 p.page
  let limit := parseIntOr 50 p.limit
  let offset := (page - 1) * limit
  if limit < 0 ∨ offset < 0 then none
  else
    let conds := buildDetectionConds p.cameraName p.carMake p.startTimestamp p.endTimestamp
    let hits := table.filter (fun r => conds.all (evalCond r))
    some ((((sortRowsDesc hits).drop offset.toNat).take limit.toNat).map
      (transformRowToDetection dateParse))

/-! Claim C8 -/

/-- C8: with the sentinel camera value All Cameras (or an absent or
blank camera) the built query carries no camera predicate, and a make
filter of N/A (case-insensitively, or the literal unknown) is bound as
the canonical value unknown, which matches exactly the rows whose
in-query make resolution falls through to unknown — in particular a
NULL metadata column and a metadata document with no make anywhere. -/
theorem c8_sentinel_filters (cam startTs endTs : Option String) (mk : String)
    (hcam : cam = none ∨ cam = some "All Cameras" ∨ ∃ c, cam = some c ∧ trimStr c = "")
    (hmk : lowerStr (trimStr mk) = "n/a" ∨ lowerStr (trimStr mk) = "unknown") :
    (∀ v, Cond.cameraEq v ∉ buildDetectionConds cam (some mk) startTs endTs) ∧
    Cond.makeEq "unknown" ∈ buildDetectionConds cam (some mk) startTs endTs ∧
    carMakeSource none = "unknown" ∧
    carMakeSource (some {}) = "unknown" ∧
    (∀ r : Row, ∀ mm, metaForSql r.metadata = some mm → carMakeSource mm = "unknown" →
      evalCond r (Cond.makeEq "unknown") = true) := by
  have hcamOff : cameraFilterActive cam = false := by
    rcases hcam with h | h | ⟨c, hc, ht⟩
    · simp [h, cameraFilterActive]
    · simp [h, cameraFilterActive]
    · subst hc
      simp [cameraFilterActive, ht]
  have hne : mk ≠ "" := by
    intro h
    subst h
    revert hmk
    decide
  have hall : mk ≠ "All Makes" := by
    intro h
    subst h
    revert hmk
    decide
  have htr : trimStr mk ≠ "" := by
    intro h
    rw [h] at hmk
    revert hmk
    decide
  have hmkOn : makeFilterActive (some mk) = true := by
    simp [makeFilterActive, hne, hall, htr]
  have hval : makeFilterValue mk = "unknown" := by
    unfold makeFilterValue
    rcases hmk with h | h <;> simp [h]
  refine ⟨?_, ?_, rfl, rfl, ?_⟩
  · intro v
    simp [buildDetectionConds, hcamOff, hmkOn, hval]
    rcases tsBound startTs with _ | n <;> rcases tsBound endTs with _ | m <;> simp
  · simp [buildDetectionConds, hcamOff, hmkOn, hval]
  · intro r mm hsql hunk
    simp [evalCond, hsql, hunk]

/-- C8 (witness): the theorem applied with camera All Cameras and make
N/A, evaluated on a row whose metadata document is empty. -/
theorem c8_sentinel_filters_witness :
    (Cond.cameraEq "Gate 1" ∉ buildDetectionConds (some "All Cameras") (some "N/A") none none) ∧
    Cond.makeEq "unknown" ∈ buildDetectionConds (some "All Cameras") (some "N/A") none none ∧
    evalCond { metadata := .doc {} } (Cond.makeEq "unknown") = true := by
  have h := c8_sentinel_filters (some "All Cameras") none none "N/A"
    (Or.inr (Or.inl rfl)) (Or.inl (by decide))
  exact ⟨h.1 "Gate 1", h.2.1, h.2.2.2.2 { metadata := .doc {} } (some {}) rfl h.2.2.2.1⟩

/-! Claim C10 -/

/-- C10: an absent, non-numeric, or zero page or limit parameter falls
back to page 1 and limit 50, the offset is then (1-1)*50 = 0, and a
request with no filter parameters returns the first 50 rows of the
table in timestamp-descending order, normalized. -/
theorem c10_pagination_defaults (dateParse : String → Option Int) (table : List Row)
    (pq lq : Option String)
    (hp : pq = none ∨ ∃ s, pq = some s ∧ (jsParseInt s = none ∨ jsParseInt s = some 0))
    (hl : lq = none ∨ ∃ s, lq = some s ∧ (jsParseInt s = none ∨ jsParseInt s = some 0)) :
    parseIntOr 1 pq = 1 ∧ parseIntOr 50 lq = 50 ∧
    (parseIntOr 1 pq - 1) * parseIntOr 50 lq = 0 ∧
    detectionsEndpoint dateParse table { page := pq, limit := lq } =
      some (((sortRowsDesc table).take 50).map (transformRowToDetection dateParse)) := by
  have hpage : parseIntOr 1 pq = 1 := by
    rcases hp with h | ⟨s, hs, h | h⟩
    · simp [parseIntOr, h]
    · simp [parseIntOr, hs, h]
    · simp [parseIntOr, hs, h]
  have hlimit : parseIntOr 50 lq = 50 := by
    rcases hl with h | ⟨s, hs, h | h⟩
    · simp [parseIntOr, h]
    · simp [parseIntOr, hs, h]
    · simp [parseIntOr, hs, h]
  refine ⟨hpage, hlimit, by rw [hpage, hlimit]; norm_num, ?_⟩
  unfold detectionsEndpoint
  rw [hpage, hlimit]
  norm_num
  have hconds : buildDetectionConds none none none none = [] := rfl
  simp [hconds, List.filter]

/-- C10 (witness): the theorem applied to a concrete two-row table with
a non-numeric page and a zero limit. -/
theorem c10_pagination_defaults_witness :
    parseIntOr 1 (some "abc") = 1 ∧ parseIntOr 50 (some "0") = 50 ∧
    detectionsEndpoint noDateParse
        [ { timestamp := some 5 }, { timestamp := some 10 } ]
        { page := some "abc", limit := some "0" } =
      some (((sortRowsDesc [ { timestamp := some 5 }, { timestamp := some 10 } ]).take 50).map
        (transformRowToDetection noDateParse)) := by
  have h := c10_pagination_defaults noDateParse
    [ { timestamp := some 5 }, { timestamp := some 10 } ] (some "abc") (some "0")
    (Or.inr ⟨"abc", rfl, Or.inl (by decide)⟩) (Or.inr ⟨"0", rfl, Or.inr (by decide)⟩)
  exact ⟨h.1, h.2.1, h.2.2.2⟩

/-! OTP authentication and session guard (the /api/auth endpoints).
Randomly generated values (OTP codes, session tokens, row ids) and the
clock are explicit arguments, so each handler is a pure function from a
database state to a response and a successor state. -/

/-- One row of alpr_data.otp_tokens. -/
structure OtpToken where
  id : Nat
  email : String
  code : String
  expiresAt : Int
  verified : Bool
  createdAt : Int
deriving DecidableEq

/-- One row of alpr_data.users. -/
structure UserRec where
  id : Nat
  email : String
  name : Option String
  lastLogin : Option Int
deriving DecidableEq

/-- One row of alpr_data.user_sessions. -/
structure SessionRec where
  userId : Nat
  token : String
  expiresAt : Int
deriving DecidableEq

/-- The three authentication tables. -/
structure AuthState where
  users : List UserRec
  otps : List OtpToken
  sessions : List SessionRec
deriving DecidableEq

/-- The responses of the authentication endpoints (constructor per
status / payload shape; messages are the literal strings of the
source). -/
inductive AuthResp where
  | badRequest (msg : String)
  | authError (msg : String)
  | notFoundSignup (msg : String)
  | serverError (msg : String)
  | okCheck (found : Bool)
  | okSend (expiresAt : Int)
  | okSession (token : String) (userId : Nat) (email : String) (name : Option String)
  | okLogout
deriving DecidableEq

/-- Email canonicalization used by every auth handler:
email.toLowerCase().trim(). -/
def canonEmail (email : String) : String := trimStr (lowerStr email)

/-- ORDER BY created_at DESC LIMIT 1 over an unordered result set: the
row with the greatest creation time. -/
def pickLatest : List OtpToken → Option OtpToken
  | [] => none
  | t :: ts =>
      match pickLatest ts with
      | none => some t
      | some u => if t.createdAt < u.createdAt then some u else some t

/-- The shared OTP row lookup of verify-otp and signup: the most recent
unverified row matching the canonical email and the trimmed code. -/
def otpLookup (st : AuthState) (email otp : String) : Option OtpToken :=
  pickLatest (st.otps.filter (fun t =>
    t.email == canonEmail email && t.code == trimStr otp && t.verified == false))

/-- POST /api/auth/check-user. -/
def checkUser (st : AuthState) (email : String) : AuthResp :=
  if email = "" ∨ trimStr email = "" then .badRequest "Email is required"
  else .okCheck (st.users.any (fun u => u.email == canonEmail email))

/-- POST /api/auth/send-otp: delete every OTP row of the email, insert
the fresh code with a five-minute expiry, then dispatch the email;
a failed dispatch yields a 500 after the rows have already changed. -/
def sendOtp (st : AuthState) (now : Int) (email otp : String) (newId : Nat)
    (emailSent : Bool) : AuthResp × AuthState :=
  if email = "" ∨ trimStr email = "" then (.badRequest "Email is required", st)
  else
    let ne := canonEmail email
    let expiresAt := now + 5 * 60 * 1000
    let st2 : AuthState :=
      { st with otps := st.otps.filter (fun t => !(t.email == ne)) ++
          [⟨newId, ne, otp, expiresAt, false, now⟩] }
    if emailSent then (.okSend expiresAt, st2)
    else (.serverError "Failed to send OTP email", st2)

/-- POST /api/auth/verify-otp: look up the code, check expiry in
application time, mark the row verified, then branch on user existence
(requiresSignup when none); otherwise update last_login and mint a
seven-day session. -/
def verifyOtp (st : AuthState) (now : Int) (email otp sessionToken : String) :
    AuthResp × AuthState :=
  if email = "" ∨ otp = "" then (.badRequest "Email and OTP are required", st)
  else
    let ne := canonEmail email
    match otpLookup st email otp with
    | none => (.authError "Invalid or expired OTP", st)
    | some tok =>
        if tok.expiresAt < now then (.authError "Invalid or expired OTP", st)
        else
          let st1 : AuthState :=
            { st with otps := st.otps.map (fun t =>
                if t.id == tok.id then { t with verified := true } else t) }
          match st1.users.find? (fun u => u.email == ne) with
          | none => (.notFoundSignup "User not found. Please sign up first.", st1)
          | some u =>
              let st2 : AuthState :=
                { st1 with users := st1.users.map (fun v =>
                    if v.id == u.id then { v with lastLogin := some now } else v) }
              let st3 : AuthState :=
                { st2 with sessions := st2.sessions ++
                    [⟨u.id, sessionToken, now + 7 * 24 * 60 * 60 * 1000⟩] }
              (.okSession sessionToken u.id u.email u.name, st3)

/-- POST /api/auth/signup: repeat the code lookup and expiry check of
verify-otp, mark the row verified, reject an existing user, otherwise
create the user and mint a session. -/
def signup (st : AuthState) (now : Int) (email : String) (name : Option String)
    (otp : String) (newUserId : Nat) (sessionToken : String) :
    AuthResp × AuthState :=
  if email = "" ∨ otp = "" then (.badRequest "Email and OTP are required", st)
  else
    let ne := canonEmail email
    match otpLookup st email otp with
    | none => (.authError "Invalid or expired OTP", st)
    | some tok =>
        if tok.expiresAt < now then (.authError "Invalid or expired OTP", st)
        else
          let st1 : AuthState :=
            { st with otps := st.otps.map (fun t =>
                if t.id == tok.id then { t with verified := true } else t) }
          if st1.users.any (fun u => u.email == ne) then
            (.badRequest "User already exists", st1)
          else
            let user : UserRec := ⟨newUserId, ne, truthyStr name, some now⟩
            let st2 : AuthState := { st1 with users := st1.users ++ [user] }
            let st3 : AuthState :=
              { st2 with sessions := st2.sessions ++
                  [⟨newUserId, sessionToken, now + 7 * 24 * 60 * 60 * 1000⟩] }
            (.okSession sessionToken user.id user.email user.name, st3)

/-- The session lookup of the authentication middleware: a session row
matching the bearer token, not yet expired, joined to its user. -/
def authLookup (st : AuthState) (now : Int) (tok : String) :
    Option (SessionRec × UserRec) :=
  st.sessions.findSome? (fun s =>
    if s.token == tok && now < s.expiresAt then
      (st.users.find? (fun u => u.id == s.userId)).map (fun u => (s, u))
    else none)

/-- authenticateSession: missing token, then session lookup; the row's
user is attached on success. -/
def authenticate (st : AuthState) (now : Int) (token : Option String) :
    Except AuthResp UserRec :=
  match token with
  | none => .error (.authError "No session token provided")
  | some tok =>
      if tok = "" then .error (.authError "No session token provided")
      else
        match authLookup st now tok with
        | none => .error (.authError "Invalid or expired session")
        | some (_, u) => .ok u

/-- POST /api/auth/logout: the authentication middleware runs first;
only an authenticated request reaches the DELETE. -/
def logoutRoute (st : AuthState) (now : Int) (token : Option String) :
    AuthResp × AuthState :=
  match token with
  | none => (.authError "No session token provided", st)
  | some tok =>
      if tok = "" then (.authError "No session token provided", st)
      else
        match authLookup st now tok with
        | none => (.authError "Invalid or expired session", st)
        | some _ =>
            (.okLogout, { st with sessions := st.sessions.filter (fun s => !(s.token == tok)) })

/-- The most-recent row is one of the rows. -/
lemma pickLatest_mem {l : List OtpToken} {t : OtpToken} (h : pickLatest l = some t) :
    t ∈ l := by
  induction l with
  | nil => simp [pickLatest] at h
  | cons a as ih =>
      cases has : pickLatest as with
      | none =>
          simp only [pickLatest, has] at h
          simp at h
          simp [h]
      | some u =>
          simp only [pickLatest, has] at h
          by_cases hcr : a.createdAt < u.createdAt
          · rw [if_pos hcr] at h
            simp at h
            subst h
            exact List.mem_cons_of_mem a (ih has)
          · rw [if_neg hcr] at h
            simp at h
            simp [h]

/-! Claim C1 -/

/-- A state holding one unexpired, unverified OTP for an email with no
User row. -/
def c1State : AuthState :=
  ⟨[], [⟨0, "a@x.com", "123456", 300000, false, 0⟩], []⟩

/-- C1: with a valid unexpired code and no existing user, verify-otp
returns the requiresSignup outcome but has already marked the code
verified, so the signup call that supplies the same email and code is
rejected with the generic AuthError instead of creating the User and
Session — although the very same signup call would have succeeded
against the state before verify-otp ran. -/
theorem c1_signup_after_requires_signup_fails :
    (verifyOtp c1State 1000 "a@x.com" "123456" "tokA").1 =
      .notFoundSignup "User not found. Please sign up first." ∧
    (signup c1State 1000 "a@x.com" (some "Alice") "123456" 1 "tokB").1 =
      .okSession "tokB" 1 "a@x.com" (some "Alice") ∧
    (signup (verifyOtp c1State 1000 "a@x.com" "123456" "tokA").2
        1000 "a@x.com" (some "Alice") "123456" 1 "tokB").1 =
      .authError "Invalid or expired OTP" ∧
    (signup (verifyOtp c1State 1000 "a@x.com" "123456" "tokA").2
        1000 "a@x.com" (some "Alice") "123456" 1 "tokB").2 =
      (verifyOtp c1State 1000 "a@x.com" "123456" "tokA").2 := by
  refine ⟨by decide, by decide, by decide, by decide⟩

/-! Claim C2 -/

/-- A state with one registered user and no OTP rows. -/
def c2State : AuthState := ⟨[⟨1, "a@x.com", none, none⟩], [], []⟩

/-- C2 (counterexample): when the email dispatch fails, send-otp does
answer with a failure, but the state is not unchanged: the freshly
persisted code is left behind and verify-otp accepts it, logging the
user in with a code that was never delivered. -/
theorem c2_counterexample :
    (sendOtp c2State 0 "a@x.com" "123456" 5 false).1 =
      .serverError "Failed to send OTP email" ∧
    (sendOtp c2State 0 "a@x.com" "123456" 5 false).2 ≠ c2State ∧
    (verifyOtp (sendOtp c2State 0 "a@x.com" "123456" 5 false).2
        0 "a@x.com" "123456" "tok").1 =
      .okSession "tok" 1 "a@x.com" none := by
  refine ⟨by decide, by decide, by decide⟩

/-- Rows deleted by email never reappear in the verification filter. -/
lemma filter_match_of_deleted (l : List OtpToken) (ne ct : String) :
    ((l.filter (fun t => !(t.email == ne))).filter (fun t =>
      t.email == ne && t.code == ct && t.verified == false)) = [] := by
  induction l with
  | nil => rfl
  | cons a as ih =>
      by_cases ha : a.email = ne
      · simpa [List.filter_cons, ha] using ih
      · simpa [List.filter_cons, ha] using ih

/-- C2 (amended): a send-otp whose email dispatch fails returns the 500
failure (no success), but the state is not rolled back: the prior codes
of the email are deleted, the fresh code is persisted, and it remains
the valid, verifiable OTP of that email (the verification lookup finds
it unverified and unexpired). -/
theorem c2_failed_dispatch_leaves_valid_code (st : AuthState) (now : Int)
    (e c : String) (newId : Nat)
    (he : e ≠ "") (ht : trimStr e ≠ "") (hc : trimStr c = c) :
    (sendOtp st now e c newId false).1 = .serverError "Failed to send OTP email" ∧
    (⟨newId, canonEmail e, c, now + 5 * 60 * 1000, false, now⟩ : OtpToken) ∈
      (sendOtp st now e c newId false).2.otps ∧
    otpLookup (sendOtp st now e c newId false).2 e c =
      some ⟨newId, canonEmail e, c, now + 5 * 60 * 1000, false, now⟩ ∧
    ¬ ((⟨newId, canonEmail e, c, now + 5 * 60 * 1000, false, now⟩ : OtpToken).expiresAt < now) := by
  have hcond : ¬ (e = "" ∨ trimStr e = "") := by simp [he, ht]
  refine ⟨?_, ?_, ?_, ?_⟩
  · simp [sendOtp, hcond]
  · simp [sendOtp, hcond]
  · have h2 : (sendOtp st now e c newId false).2.otps =
        st.otps.filter (fun t => !(t.email == canonEmail e)) ++
          [⟨newId, canonEmail e, c, now + 5 * 60 * 1000, false, now⟩] := by
      simp [sendOtp, hcond]
    unfold otpLookup
    rw [h2, List.filter_append, filter_match_of_deleted]
    simp [pickLatest, hc]
  · show ¬ (now + 5 * 60 * 1000 < now)
    omega

/-- C2 (witness): the amended theorem applied at a concrete state. -/
theorem c2_failed_dispatch_witness :
    (sendOtp c2State 0 "a@x.com" "123456" 5 false).1 =
      .serverError "Failed to send OTP email" ∧
    otpLookup (sendOtp c2State 0 "a@x.com" "123456" 5 false).2 "a@x.com" "123456" =
      some ⟨5, canonEmail "a@x.com", "123456", 0 + 5 * 60 * 1000, false, 0⟩ := by
  have h := c2_failed_dispatch_leaves_valid_code c2State 0 "a@x.com" "123456" 5
    (by decide) (by decide) (by decide)
  exact ⟨h.1, h.2.2.1⟩

/-! Claim C3 -/

/-- A state with one user and one live session. -/
def c3State : AuthState := ⟨[⟨1, "a@x.com", none, none⟩], [], [⟨1, "tok123", 1000⟩]⟩

/-- C3 (counterexample): the first logout succeeds, but a second logout
with the same token is an error after all — the logout route sits
behind the authentication middleware, so it answers with the same 401
as every other protected route. -/
theorem c3_counterexample :
    (logoutRoute c3State 0 (some "tok123")).1 = .okLogout ∧
    (logoutRoute (logoutRoute c3State 0 (some "tok123")).2 0 (some "tok123")).1 =
      .authError "Invalid or expired session" := by
  refine ⟨by decide, by decide⟩

/-- After the DELETE no session row carries the token, so the
middleware lookup fails. -/
lemma authLookup_after_delete (st : AuthState) (now : Int) (tok : String) :
    authLookup { st with sessions := st.sessions.filter (fun s => !(s.token == tok)) }
      now tok = none := by
  unfold authLookup
  rw [List.findSome?_eq_none_iff]
  intro s hs
  have hne : ¬ (s.token == tok) = true := by
    have := List.of_mem_filter hs
    simpa using this
  simp at hne
  simp [hne]

/-- C3 (amended): logout deletes the session row (afterwards no row
carries the token) and the deletion itself is idempotent and throws no
exception, but a second logout with the same token is answered with the
401 authentication error and leaves the state unchanged — exactly like
any other protected route presented with the logged-out token. -/
theorem c3_logout_then_reuse (st : AuthState) (now now2 : Int) (tok : String)
    (p : SessionRec × UserRec)
    (htok : tok ≠ "") (h : authLookup st now tok = some p) :
    (logoutRoute st now (some tok)).1 = .okLogout ∧
    (∀ s ∈ (logoutRoute st now (some tok)).2.sessions, s.token ≠ tok) ∧
    authenticate (logoutRoute st now (some tok)).2 now2 (some tok) =
      .error (.authError "Invalid or expired session") ∧
    logoutRoute (logoutRoute st now (some tok)).2 now2 (some tok) =
      (.authError "Invalid or expired session", (logoutRoute st now (some tok)).2) := by
  have hrun : logoutRoute st now (some tok) =
      (.okLogout, { st with sessions := st.sessions.filter (fun s => !(s.token == tok)) }) := by
    simp [logoutRoute, htok, h]
  refine ⟨by rw [hrun], ?_, ?_, ?_⟩
  · rw [hrun]
    intro s hs
    have := List.of_mem_filter hs
    simpa using this
  · rw [hrun]
    simp [authenticate, htok, authLookup_after_delete]
  · rw [hrun]
    simp [logoutRoute, htok, authLookup_after_delete]

/-- C3 (witness): the amended theorem applied at the concrete state. -/
theorem c3_logout_then_reuse_witness :
    (logoutRoute c3State 0 (some "tok123")).1 = .okLogout ∧
    authenticate (logoutRoute c3State 0 (some "tok123")).2 0 (some "tok123") =
      .error (.authError "Invalid or expired session") := by
  have h := c3_logout_then_reuse c3State 0 0 "tok123"
    (⟨1, "tok123", 1000⟩, ⟨1, "a@x.com", none, none⟩) (by decide) (by decide)
  exact ⟨h.1, h.2.2.1⟩

/-! Claim C4 -/

/-- C4: when every stored OTP row for an email and code is already
verified or past its expiry, both verify-otp and signup answer with the
same generic AuthError and leave the state unchanged: a code is never
accepted again after verification or expiry, and the failure does not
reveal whether the code was correct. -/
theorem c4_no_reuse_after_verify_or_expiry (st : AuthState) (now : Int)
    (e c : String) (nm : Option String) (tk tk2 : String) (uid : Nat)
    (he : e ≠ "") (hc : c ≠ "")
    (h : ∀ t ∈ st.otps, t.email = canonEmail e → t.code = trimStr c →
      t.verified = true ∨ t.expiresAt < now) :
    verifyOtp st now e c tk = (.authError "Invalid or expired OTP", st) ∧
    signup st now e nm c uid tk2 = (.authError "Invalid or expired OTP", st) := by
  have hcond : ¬ (e = "" ∨ c = "") := by simp [he, hc]
  have hexp : ∀ tok, otpLookup st e c = some tok → tok.expiresAt < now := by
    intro tok hL
    have hmem := pickLatest_mem hL
    have hprops := List.mem_filter.mp hmem
    have hb := hprops.2
    simp only [Bool.and_eq_true, beq_iff_eq] at hb
    rcases h tok hprops.1 hb.1.1 hb.1.2 with hv | hx
    · rw [hv] at hb
      simp at hb
    · exact hx
  constructor
  · unfold verifyOtp
    rw [if_neg hcond]
    cases hL : otpLookup st e c with
    | none => rfl
    | some tok =>
        have := hexp tok hL
        simp [this]
  · unfold signup
    rw [if_neg hcond]
    cases hL : otpLookup st e c with
    | none => rfl
    | some tok =>
        have := hexp tok hL
        simp [this]

/-- A state whose only OTP row for the email is already verified. -/
def c4State : AuthState := ⟨[], [⟨0, "a@x.com", "123456", 300000, true, 0⟩], []⟩

/-- C4 (witness): the theorem applied at a state whose only matching
code has been consumed. -/
theorem c4_no_reuse_witness :
    verifyOtp c4State 1000 "a@x.com" "123456" "tk" =
      (.authError "Invalid or expired OTP", c4State) ∧
    signup c4State 1000 "a@x.com" (some "Alice") "123456" 7 "tk2" =
      (.authError "Invalid or expired OTP", c4State) :=
  c4_no_reuse_after_verify_or_expiry c4State 1000 "a@x.com" "123456" (some "Alice")
    "tk" "tk2" 7 (by decide) (by decide) (by decide)

/-! Claim C9 -/

/-- The OTP lookup depends on the email only through its canonical
form. -/
lemma otpLookup_congr (st : AuthState) (e e2 o : String)
    (h : canonEmail e = canonEmail e2) : otpLookup st e o = otpLookup st e2 o := by
  unfold otpLookup
  rw [h]

/-- C9: every authentication handler canonicalizes the submitted email
by lowercasing and trimming before touching the database, so two
requests whose emails agree after canonicalization (differing only in
case or surrounding whitespace) produce identical responses and
identical successor states across check-user, send-otp, verify-otp and
signup. -/
theorem c9_email_canonicalized (st : AuthState) (now : Int) (e e2 : String)
    (c : String) (newId : Nat) (emailSent : Bool) (o tk : String)
    (nm : Option String) (uid : Nat) (tk2 : String)
    (he : e ≠ "") (he2 : e2 ≠ "") (ht : trimStr e ≠ "") (ht2 : trimStr e2 ≠ "")
    (hcanon : canonEmail e = canonEmail e2) :
    checkUser st e = checkUser st e2 ∧
    sendOtp st now e c newId emailSent = sendOtp st now e2 c newId emailSent ∧
    verifyOtp st now e o tk = verifyOtp st now e2 o tk ∧
    signup st now e nm o uid tk2 = signup st now e2 nm o uid tk2 := by
  refine ⟨?_, ?_, ?_, ?_⟩
  · unfold checkUser
    rw [if_neg (show ¬ (e = "" ∨ trimStr e = "") from by simp [he, ht]),
      if_neg (show ¬ (e2 = "" ∨ trimStr e2 = "") from by simp [he2, ht2]), hcanon]
  · unfold sendOtp
    rw [if_neg (show ¬ (e = "" ∨ trimStr e = "") from by simp [he, ht]),
      if_neg (show ¬ (e2 = "" ∨ trimStr e2 = "") from by simp [he2, ht2]), hcanon]
  · by_cases ho : o = ""
    · simp [verifyOtp, ho]
    · unfold verifyOtp
      rw [if_neg (show ¬ (e = "" ∨ o = "") from by simp [he, ho]),
        if_neg (show ¬ (e2 = "" ∨ o = "") from by simp [he2, ho]),
        otpLookup_congr st e e2 o hcanon, hcanon]
  · by_cases ho : o = ""
    · simp [signup, ho]
    · unfold signup
      rw [if_neg (show ¬ (e = "" ∨ o = "") from by simp [he, ho]),
        if_neg (show ¬ (e2 = "" ∨ o = "") from by simp [he2, ho]),
        otpLookup_congr st e e2 o hcanon, hcanon]

/-- C9 (witness): the theorem applied to two concrete spellings of one
address. -/
theorem c9_email_canonicalized_witness :
    checkUser c2State " Alice@X.COM " = checkUser c2State "alice@x.com" ∧
    verifyOtp c2State 0 " Alice@X.COM " "123456" "tk" =
      verifyOtp c2State 0 "alice@x.com" "123456" "tk" := by
  have h := c9_email_canonicalized c2State 0 " Alice@X.COM " "alice@x.com"
    "123456" 5 true "123456" "tk" (some "Alice") 7 "tk2"
    (by decide) (by decide) (by decide) (by decide) (by decide)
  exact ⟨h.1, h.2.2.1⟩

end ALPR
